import Mathlib

/- A shallow embedding of the Flask service in src/app.py: a JSON value type,
   Python dict operations, the document-store CRUD handlers, the Auth0
   provisioning handler and the GitHub workflow-dispatch handler, together
   with theorems settling the specification claims.

   External services are modelled explicitly:
   * The document store (Cosmos) is a list of JSON objects; its client either
     works or raises (`Conn`).  The container's partition key path is `/id`
     (app.py line 59) and the store requires the partition key value to be a
     string.
   * The identity provider (Auth0) and the CI platform (GitHub) are oracles
     whose outcomes are inputs to the handler; the remote calls a handler
     issues are collected in an effect trace. -/

namespace HealthApp

/-- JSON values as delivered by Flask request parsing (Python objects). -/
inductive JVal where
  | jnull
  | jbool (b : Bool)
  | jnum (n : Int)
  | jstr (s : String)
  | jlist (xs : List JVal)
  | jobj (kvs : List (String × JVal))

/-- A JSON object / Python dict, as an insertion-ordered association list. -/
abbrev Doc := List (String × JVal)

/-- Python `d.get(k)` without default: the first binding of `k`, if any. -/
def dictGet : Doc → String → Option JVal
  | [], _ => none
  | (k', v) :: rest, k => if k' = k then some v else dictGet rest k

/-- Python `d.get(k, default)`.  A present key wins even when its value is
`None`: the default is used only for an absent key. -/
def dictGetD (d : Doc) (k : String) (default : JVal) : JVal :=
  match dictGet d k with
  | some v => v
  | none => default

/-- Python `d.get(k)`: a missing key yields `None`. -/
def pyGet (d : Doc) (k : String) : JVal :=
  dictGetD d k .jnull

/-- Python `k in d`. -/
def hasKey (d : Doc) (k : String) : Bool :=
  (dictGet d k).isSome

/-- Python truthiness (`bool(v)`) of a JSON value. -/
def truthy : JVal → Bool
  | .jnull => false
  | .jbool b => b
  | .jnum n => n != 0
  | .jstr s => s != ""
  | .jlist [] => false
  | .jlist (_ :: _) => true
  | .jobj [] => false
  | .jobj (_ :: _) => true

/-- Python `d[k] = v` on a dict: update the binding in place, or append a new
binding at the end (insertion order). -/
def dictSet : Doc → String → JVal → Doc
  | [], k, v => [(k, v)]
  | (k', v') :: rest, k, v =>
    if k' = k then (k, v) :: rest else (k', v') :: dictSet rest k v

/-- Python `old.update(patch)` (app.py line 271): bindings of `patch`
overwrite same-named bindings of `old`; all other bindings of `old`
survive. -/
def pyUpdate (old patch : Doc) : Doc :=
  patch.foldl (fun acc kv => dictSet acc kv.1 kv.2) old

/-- The string value of a document's `id` field, when present.  `id` is the
partition key (path `/id`, app.py line 59); the store accepts only string
ids. -/
def idStr (r : Doc) : Option String :=
  match dictGet r "id" with
  | some (.jstr s) => some s
  | _ => none

/-- The string value of a document's `TenantId` field, when present.  The
query `SELECT * FROM c WHERE c.TenantId = @tenant_id` (app.py line 206)
compares the field against a string parameter, so only a string field equal
to the parameter matches. -/
def tenantStr (r : Doc) : Option String :=
  match dictGet r "TenantId" with
  | some (.jstr s) => some s
  | _ => none

/-- The document container: the stored documents in store order. -/
abbrev Store := List Doc

/-- Health of the store client: `.error e` models the client raising a
`CosmosHttpResponseError` carrying message `e`. -/
abbrev Conn := Except String Unit

/-- `container.upsert_item` keyed by the partition key value `s`: replace the
first document whose `id` is `s`, or append the new document. -/
def upsertAt : Store → String → Doc → Store
  | [], _, d => [d]
  | r :: rest, s, d => if idStr r = some s then d :: rest else r :: upsertAt rest s d

/-- `container.read_item(item=id, partition_key=id)`: the stored document
whose `id` equals `id`, if any. -/
def findById (store : Store) (id : String) : Option Doc :=
  store.find? (fun r => decide (idStr r = some id))

/-- `container.replace_item` issued for the document that was read under
partition key `id`: the replacement lands on the stored document with that
`id`. -/
def replaceById : Store → String → Doc → Store
  | [], _, _ => []
  | r :: rest, id, m => if idStr r = some id then m :: rest else r :: replaceById rest id m

/-- `container.delete_item(item=id, partition_key=id)`: drop the stored
document with that `id`. -/
def removeById : Store → String → Store
  | [], _ => []
  | r :: rest, id => if idStr r = some id then rest else r :: removeById rest id

/-- An HTTP response: status code and JSON-object body. -/
structure HandlerResp where
  status : Nat
  body : Doc

/-- POST /write (app.py lines 182-199).  `if not data or 'id' not in data`
rejects a missing body, an empty object and an absent `id` key with 400;
a store failure answers 500; otherwise the document is upserted keyed by
its `id`.  A non-string `id` is rejected by the store (the partition key
must be a string), surfacing through the same 500 branch. -/
def writeData (conn : Conn) (store : Store) (data : Option Doc) : HandlerResp × Store :=
  match data with
  | none => (⟨400, [("error", .jstr "Invalid data. 'id' is required.")]⟩, store)
  | some d =>
    if d.isEmpty ∨ hasKey d "id" = false then
      (⟨400, [("error", .jstr "Invalid data. 'id' is required.")]⟩, store)
    else
      match conn with
      | .error _ => (⟨500, [("error", .jstr "Database error")]⟩, store)
      | .ok _ =>
        match idStr d with
        | some s =>
          (⟨201, [("message", .jstr "Data written or updated successfully")]⟩, upsertAt store s d)
        | none => (⟨500, [("error", .jstr "Database error")]⟩, store)

/-- GET /retrieve/<tenant_id> (app.py lines 201-223): runs the parameterized
query `SELECT * FROM c WHERE c.TenantId = @tenant_id` and answers with the
first hit (`items[0]`), 404 when there is no hit, and 500 with the raised
detail when the store client fails. -/
def retrieveData (conn : Conn) (store : Store) (tid : String) : HandlerResp :=
  match conn with
  | .error e => ⟨500, [("error", .jstr "Database error"), ("details", .jstr e)]⟩
  | .ok _ =>
    match store.filter (fun r => decide (tenantStr r = some tid)) with
    | [] => ⟨404, [("error", .jstr "Item not found")]⟩
    | r :: _ => ⟨200, r⟩

/-- PUT /edit/<id> (app.py lines 258-280): an empty body is 400; the stored
document is read by partition key `id`, the body is merged over it with
`item.update(updated_data)`, and the merged object is written back with
`replace_item`.  The replacement is issued for the document that was read;
a merged object whose `/id` partition key no longer equals `id` cannot land
on it, the store raises not-found, and the handler's
`CosmosResourceNotFoundError` branch answers 404. -/
def editData (conn : Conn) (store : Store) (id : String) (patch : Doc) : HandlerResp × Store :=
  if patch.isEmpty then
    (⟨400, [("error", .jstr "Invalid input. JSON body is required.")]⟩, store)
  else
    match conn with
    | .error _ => (⟨500, [("error", .jstr "Database error")]⟩, store)
    | .ok _ =>
      match findById store id with
      | none => (⟨404, [("error", .jstr "Item not found")]⟩, store)
      | some old =>
        let merged := pyUpdate old patch
        if idStr merged = some id then
          (⟨200, [("message", .jstr "Data updated successfully")]⟩, replaceById store id merged)
        else
          (⟨404, [("error", .jstr "Item not found")]⟩, store)

/-- DELETE /delete/<id> (app.py lines 242-256). -/
def deleteData (conn : Conn) (store : Store) (id : String) : HandlerResp × Store :=
  match conn with
  | .error _ => (⟨500, [("error", .jstr "Database error")]⟩, store)
  | .ok _ =>
    match findById store id with
    | none => (⟨404, [("error", .jstr "Item not found")]⟩, store)
    | some _ => (⟨200, [("message", .jstr "Data deleted successfully")]⟩, removeById store id)

/-- The ids of the stored documents, in store order. -/
def storeIds (store : Store) : List (Option String) :=
  store.map idStr

/-- ensure_list (app.py lines 85-90): `None` becomes `[]`, a list is kept,
anything else is wrapped in a one-element list. -/
def ensureList : JVal → List JVal
  | .jnull => []
  | .jlist xs => xs
  | v => [v]

/-- Python `str.lower()`, modelled character-wise (ASCII letters). -/
def pyLower (s : String) : String :=
  String.mk (s.data.map Char.toLower)

/-- Python `s.replace(" ", "-")`: a one-character pattern and replacement is
a character-wise map. -/
def pyReplaceSpaceDash (s : String) : String :=
  String.mk (s.data.map (fun c => if c = ' ' then '-' else c))

/-- `org_name.lower().replace(" ", "-")` (app.py line 135). -/
def pySlug (s : String) : String :=
  pyReplaceSpaceDash (pyLower s)

/-- The remote calls the /createApp handler can issue, in issue order. -/
inductive A0Effect where
  | tokenExchange
  | clientCreate (name : JVal) (callbacks logoutUrls : List JVal) (initiateLoginUri : JVal)
  | orgCreate (name displayName : String)
  | orgConnect (orgId connId : String)
  | invite (orgId clientId : String) (invitee : JVal)

/-- Outcomes of the external identity-provider calls, one oracle per call
site: the token exchange (app.py lines 65-83), `clients.create`,
`organizations.create_organization`, the organization-connection call and
the invitation call.  `.error e` models the SDK raising with message `e`. -/
structure A0World where
  token : Except String Unit
  clientCreate : Except String String
  orgCreate : Except String String
  orgConnect : Except String Unit
  invite : Except String Unit

/-- The required-parameter table of /createApp (app.py lines 112-113): the
dict comprehension runs over `app`, `org_name`, `email` and
`initiate_login_uri` with their handler-computed values. -/
def reqPairs (data : Doc) : List (String × JVal) :=
  [("app", pyGet data "app"),
   ("org_name", pyGet data "org_name"),
   ("email", pyGet data "email"),
   ("initiate_login_uri", dictGetD data "initiate_login_uri" (.jstr "http://localhost:3000"))]

/-- The names of the falsy required parameters (app.py lines 112-113). -/
def missingFields (data : Doc) : List String :=
  ((reqPairs data).filter (fun p => truthy p.2 = false)).map Prod.fst

/-- POST /createApp (app.py lines 92-179): validate the required fields,
then in strict sequence exchange the machine credential for a token, create
the client, the organization (slugged name, original display name), the
organization connection and the invitation.  Any raised step falls into the
catch-all 500; the trace records the calls issued up to that point.  A
non-string `org_name` raises `AttributeError` at `org_name.lower()` before
the organization call is issued. -/
def createAuth0App (w : A0World) (connId domain : String) (data : Doc) :
    HandlerResp × List A0Effect :=
  let appName := pyGet data "app"
  let orgName := pyGet data "org_name"
  let email := pyGet data "email"
  let initiateLoginUri := dictGetD data "initiate_login_uri" (.jstr "http://localhost:3000")
  let callbackUrls := ensureList (dictGetD data "callback_urls" (.jstr "http://localhost:3000/callback"))
  let logoutUrls := ensureList (dictGetD data "logout_urls" (.jstr "http://localhost:3000/logout"))
  if truthy appName && truthy orgName && truthy email && truthy initiateLoginUri then
    match w.token with
    | .error e =>
      (⟨500, [("error", .jstr "Application creation failed"), ("details", .jstr e)]⟩,
        [.tokenExchange])
    | .ok _ =>
      let fx1 : List A0Effect :=
        [.tokenExchange, .clientCreate appName callbackUrls logoutUrls initiateLoginUri]
      match w.clientCreate with
      | .error e =>
        (⟨500, [("error", .jstr "Application creation failed"), ("details", .jstr e)]⟩, fx1)
      | .ok cid =>
        match orgName with
        | .jstr s =>
          let fx2 := fx1 ++ [.orgCreate (pySlug s) s]
          match w.orgCreate with
          | .error e =>
            (⟨500, [("error", .jstr "Application creation failed"), ("details", .jstr e)]⟩, fx2)
          | .ok oid =>
            let fx3 := fx2 ++ [.orgConnect oid connId]
            match w.orgConnect with
            | .error e =>
              (⟨500, [("error", .jstr "Application creation failed"), ("details", .jstr e)]⟩, fx3)
            | .ok _ =>
              let fx4 := fx3 ++ [.invite oid cid email]
              match w.invite with
              | .error e =>
                (⟨500, [("error", .jstr "Application creation failed"), ("details", .jstr e)]⟩, fx4)
              | .ok _ =>
                (⟨201, [("client_id", .jstr cid), ("org_id", .jstr oid),
                        ("initiate_login_uri", initiateLoginUri),
                        ("oidc_conformant", .jbool true),
                        ("okta_domain", .jstr domain),
                        ("callback_urls", .jlist callbackUrls)]⟩, fx4)
        | _ =>
          (⟨500, [("error", .jstr "Application creation failed"),
                  ("details", .jstr "AttributeError")]⟩, fx1)
  else
    (⟨400, [("error",
        .jstr ("Missing required fields: " ++ String.intercalate ", " (missingFields data)))]⟩,
      [])

/-- How `response.json().get('message', 'Unknown error')` (app.py line 338)
sees a CI-platform response body: not a JSON object (the call raises), a
JSON object without `message`, or a JSON object with `message`. -/
inductive GhBody where
  | noJson
  | jsonWithout
  | jsonWith (m : String)

/-- A CI-platform HTTP response: status code and body as parsed above. -/
structure GhResp where
  status : Nat
  body : GhBody

/-- The remote call POST /trigger-deploy can issue. -/
inductive GhEffect where
  | dispatch (repo workflowId inputs : JVal)

/-- POST /trigger-deploy (app.py lines 282-346): missing `repo` then missing
`workflow_id` answer 400 before any remote call; empty credentials answer
500; then the dispatch is issued.  A transport failure answers 500; a 204
answers 200; any other status is echoed with the body's `message` (or
`Unknown error`); a non-JSON error body makes `response.json()` raise,
landing in a 500 catch branch. -/
def triggerDeployment (pat owner : String) (w : Except String GhResp) (data : Doc) :
    HandlerResp × List GhEffect :=
  let repo := pyGet data "repo"
  let workflowId := pyGet data "workflow_id"
  let inputs := dictGetD data "inputs" (.jobj [])
  if truthy repo = false then
    (⟨400, [("error", .jstr "Missing required parameter: repo")]⟩, [])
  else if truthy workflowId = false then
    (⟨400, [("error", .jstr "Missing required parameter: workflow_id")]⟩, [])
  else if pat = "" ∨ owner = "" then
    (⟨500, [("error", .jstr "Server misconfiguration")]⟩, [])
  else
    let fx : List GhEffect := [.dispatch repo workflowId inputs]
    match w with
    | .error _ => (⟨500, [("error", .jstr "Connection to GitHub failed")]⟩, fx)
    | .ok r =>
      if r.status = 204 then
        (⟨200, [("status", .jstr "Workflow triggered successfully"), ("repo", repo),
                ("workflow_id", workflowId), ("inputs", inputs)]⟩, fx)
      else
        match r.body with
        | .jsonWith m =>
          (⟨r.status, [("error", .jstr "Failed to trigger workflow"), ("repo", repo),
                       ("workflow_id", workflowId), ("details", .jstr m)]⟩, fx)
        | .jsonWithout =>
          (⟨r.status, [("error", .jstr "Failed to trigger workflow"), ("repo", repo),
                       ("workflow_id", workflowId), ("details", .jstr "Unknown error")]⟩, fx)
        | .noJson => (⟨500, [("error", .jstr "Connection to GitHub failed")]⟩, fx)

/- ---------------------------------------------------------------- lemmas -/

theorem isEmpty_false_of_dictGet {d : Doc} {k : String} {v : JVal}
    (h : dictGet d k = some v) : d.isEmpty = false := by
  cases d with
  | nil => simp [dictGet] at h
  | cons p rest => simp [List.isEmpty]

theorem hasKey_of_dictGet {d : Doc} {k : String} {v : JVal}
    (h : dictGet d k = some v) : hasKey d k = true := by
  simp [hasKey, h]

theorem idStr_of_dictGet {d : Doc} {t : String}
    (h : dictGet d "id" = some (.jstr t)) : idStr d = some t := by
  simp [idStr, h]

theorem tenantStr_of_dictGet {d : Doc} {t : String}
    (h : dictGet d "TenantId" = some (.jstr t)) : tenantStr d = some t := by
  simp [tenantStr, h]

theorem upsertAt_filter_tenant (store : Store) (d : Doc) (t : String)
    (hd : tenantStr d = some t)
    (hU : ∀ r ∈ store, tenantStr r = some t → idStr r = some t) :
    ∃ rest, (upsertAt store t d).filter (fun r => decide (tenantStr r = some t)) = d :: rest := by
  induction store with
  | nil => exact ⟨[], by simp [upsertAt, List.filter_cons, hd]⟩
  | cons r rest ih =>
    by_cases hr : idStr r = some t
    · exact ⟨rest.filter (fun r => decide (tenantStr r = some t)),
        by simp [upsertAt, hr, List.filter_cons, hd]⟩
    · have htr : ¬ tenantStr r = some t := fun htr => hr (hU r (by simp) htr)
      obtain ⟨rest', hrest⟩ := ih (fun q hq hqt => hU q (by simp [hq]) hqt)
      exact ⟨rest', by simp [upsertAt, hr, List.filter_cons, htr, hrest]⟩

theorem dictGet_dictSet_self (d : Doc) (k : String) (v : JVal) :
    dictGet (dictSet d k v) k = some v := by
  induction d with
  | nil => simp [dictSet, dictGet]
  | cons p rest ih =>
    by_cases hk : p.1 = k
    · simp [dictSet, hk, dictGet]
    · simp [dictSet, hk, dictGet, ih]

theorem dictGet_dictSet_ne (d : Doc) {k k' : String} (v : JVal) (h : k ≠ k') :
    dictGet (dictSet d k v) k' = dictGet d k' := by
  induction d with
  | nil => simp [dictSet, dictGet, h]
  | cons p rest ih =>
    by_cases hk : p.1 = k
    · simp [dictSet, hk, dictGet, h]
    · simp [dictSet, hk, dictGet, ih]

theorem dictGet_eq_none_iff (d : Doc) (k : String) :
    dictGet d k = none ↔ k ∉ d.map Prod.fst := by
  induction d with
  | nil => simp [dictGet]
  | cons p rest ih =>
    by_cases hk : p.1 = k
    · simp [dictGet, hk]
    · simp [dictGet, hk, ih, Ne.symm hk]

theorem pyUpdate_cons (old : Doc) (p : String × JVal) (ps : Doc) :
    pyUpdate old (p :: ps) = pyUpdate (dictSet old p.1 p.2) ps := rfl

theorem pyUpdate_notin {patch : Doc} {k : String} (old : Doc)
    (h : dictGet patch k = none) :
    dictGet (pyUpdate old patch) k = dictGet old k := by
  induction patch generalizing old with
  | nil => rfl
  | cons p rest ih =>
    have hk : ¬ p.1 = k := by
      intro hk
      simp [dictGet, hk] at h
    have hrest : dictGet rest k = none := by
      simpa [dictGet, hk] using h
    rw [pyUpdate_cons, ih _ hrest, dictGet_dictSet_ne _ _ hk]

theorem pyUpdate_in {patch : Doc} {k : String} {v : JVal} (old : Doc)
    (hnd : (patch.map Prod.fst).Nodup)
    (h : dictGet patch k = some v) :
    dictGet (pyUpdate old patch) k = some v := by
  induction patch generalizing old with
  | nil => simp [dictGet] at h
  | cons p rest ih =>
    rw [pyUpdate_cons]
    rw [List.map_cons] at hnd
    have hnd1 := (List.nodup_cons.1 hnd).1
    have hnd2 := (List.nodup_cons.1 hnd).2
    by_cases hk : p.1 = k
    · subst hk
      have hv : v = p.2 := by
        simp [dictGet] at h
        exact h.symm
      have hrest : dictGet rest p.1 = none := (dictGet_eq_none_iff rest p.1).2 hnd1
      rw [pyUpdate_notin _ hrest, dictGet_dictSet_self old p.1 p.2, hv]
    · have hrest : dictGet rest k = some v := by
        simpa [dictGet, hk] using h
      exact ih _ hnd2 hrest

theorem idStr_findById {store : Store} {id : String} {old : Doc}
    (h : findById store id = some old) : idStr old = some id := by
  have := List.find?_some h
  simpa using this

theorem mem_replaceById {store : Store} {id : String} {old : Doc} (m : Doc)
    (h : findById store id = some old) : m ∈ replaceById store id m := by
  induction store with
  | nil => simp [findById, List.find?] at h
  | cons r rest ih =>
    by_cases hr : idStr r = some id
    · simp [replaceById, hr]
    · have h' : findById rest id = some old := by
        simpa [findById, List.find?, hr] using h
      simp [replaceById, hr, ih h']

theorem storeIds_upsertAt (store : Store) {s : String} {d : Doc}
    (h : idStr d = some s) :
    storeIds (upsertAt store s d) = storeIds store ∨
      storeIds (upsertAt store s d) = storeIds store ++ [some s] := by
  induction store with
  | nil => exact Or.inr (by simp [upsertAt, storeIds, h])
  | cons r rest ih =>
    by_cases hr : idStr r = some s
    · exact Or.inl (by simp [upsertAt, hr, storeIds, h])
    · rcases ih with h1 | h1
      · exact Or.inl (by simp [upsertAt, hr, storeIds] at h1 ⊢; exact h1)
      · exact Or.inr (by simp [upsertAt, hr, storeIds] at h1 ⊢; exact h1)

theorem storeIds_replaceById (store : Store) {id : String} {m : Doc}
    (h : idStr m = some id) :
    storeIds (replaceById store id m) = storeIds store := by
  induction store with
  | nil => rfl
  | cons r rest ih =>
    by_cases hr : idStr r = some id
    · have hrep : replaceById (r :: rest) id m = m :: rest := by simp [replaceById, hr]
      rw [hrep]
      simp [storeIds, h, hr]
    · simp [replaceById, hr, storeIds] at ih ⊢
      exact ih

theorem storeIds_removeById (store : Store) (id : String) :
    List.Sublist (storeIds (removeById store id)) (storeIds store) := by
  induction store with
  | nil => simp [removeById, storeIds]
  | cons r rest ih =>
    by_cases hr : idStr r = some id
    · simp only [removeById, hr, if_pos, storeIds, List.map_cons]
      exact List.sublist_cons_self _ _
    · simp only [removeById, hr, if_neg, ite_false, storeIds, List.map_cons]
      exact List.Sublist.cons₂ _ ih

/- ---------------------------------------------------------------- claims -/

/-- C1, counterexample.  A document written via /write with id `t1` (and no
`TenantId` field) is stored, yet the immediately following
GET /retrieve/t1 answers 404: the retrieval queries `c.TenantId`, not the
partition key, so the write/retrieve round-trip of the claim fails. -/
theorem C1_counterexample :
    (writeData (.ok ()) [] (some [("id", JVal.jstr "t1"), ("name", JVal.jstr "Acme")])).1.status
        = 201 ∧
    (writeData (.ok ()) [] (some [("id", JVal.jstr "t1"), ("name", JVal.jstr "Acme")])).2
        = [[("id", JVal.jstr "t1"), ("name", JVal.jstr "Acme")]] ∧
    retrieveData (.ok ()) [[("id", JVal.jstr "t1"), ("name", JVal.jstr "Acme")]] "t1"
        = ⟨404, [("error", JVal.jstr "Item not found")]⟩ :=
  ⟨rfl, rfl, rfl⟩

/-- C1 (amended): for every record written via /write whose `TenantId` field
equals its `id` value, into a store in which every record with that
`TenantId` also has that `id`, the write answers 201 and an immediately
following GET /retrieve/<id> answers 200 with exactly the written record. -/
theorem C1_roundtrip_tenant (store : Store) (d : Doc) (t : String)
    (hid : dictGet d "id" = some (.jstr t))
    (hten : dictGet d "TenantId" = some (.jstr t))
    (hU : ∀ r ∈ store, tenantStr r = some t → idStr r = some t) :
    (writeData (.ok ()) store (some d)).1.status = 201 ∧
    retrieveData (.ok ()) (writeData (.ok ()) store (some d)).2 t = ⟨200, d⟩ := by
  have hne : d.isEmpty = false := isEmpty_false_of_dictGet hid
  have hkey : hasKey d "id" = true := hasKey_of_dictGet hid
  have hids : idStr d = some t := idStr_of_dictGet hid
  have htens : tenantStr d = some t := tenantStr_of_dictGet hten
  have hw : writeData (.ok ()) store (some d)
      = (⟨201, [("message", .jstr "Data written or updated successfully")]⟩, upsertAt store t d) := by
    simp [writeData, hne, hkey, hids]
  obtain ⟨rest, hf⟩ := upsertAt_filter_tenant store d t htens hU
  rw [hw]
  exact ⟨rfl, by simp [retrieveData, hf]⟩

/-- C1 witness: a concrete instance of the amended round-trip. -/
theorem C1_roundtrip_tenant_witness :
    (writeData (.ok ()) []
        (some [("id", JVal.jstr "t1"), ("TenantId", JVal.jstr "t1"),
               ("name", JVal.jstr "Acme")])).1.status = 201 ∧
    retrieveData (.ok ())
        (writeData (.ok ()) []
          (some [("id", JVal.jstr "t1"), ("TenantId", JVal.jstr "t1"),
                 ("name", JVal.jstr "Acme")])).2 "t1"
      = ⟨200, [("id", JVal.jstr "t1"), ("TenantId", JVal.jstr "t1"),
               ("name", JVal.jstr "Acme")]⟩ :=
  C1_roundtrip_tenant []
    [("id", JVal.jstr "t1"), ("TenantId", JVal.jstr "t1"), ("name", JVal.jstr "Acme")]
    "t1" rfl rfl (by simp)

/-- C2, counterexample.  The store holds a document whose partition key `id`
equals the path parameter `t1`, yet GET /retrieve/t1 answers 404: the
handler filters on the `TenantId` field, not on the partition key. -/
theorem C2_counterexample :
    idStr [("id", JVal.jstr "t1"), ("TenantId", JVal.jstr "x")] = some "t1" ∧
    retrieveData (.ok ()) [[("id", JVal.jstr "t1"), ("TenantId", JVal.jstr "x")]] "t1"
      = ⟨404, [("error", JVal.jstr "Item not found")]⟩ :=
  ⟨rfl, rfl⟩

/-- C2 (amended): GET /retrieve/<id> returns, with status 200, the first
stored record whose `TenantId` field equals the path parameter; when no
record matches it answers 404 (not found), and a store failure answers 500
with the raised detail — a distinct outcome (404 is not 500). -/
theorem C2_retrieve_by_tenant (store : Store) (tid : String) :
    (∀ e, retrieveData (.error e) store tid
        = ⟨500, [("error", .jstr "Database error"), ("details", .jstr e)]⟩) ∧
    (store.filter (fun r => decide (tenantStr r = some tid)) = [] →
      retrieveData (.ok ()) store tid = ⟨404, [("error", .jstr "Item not found")]⟩) ∧
    (∀ r rest, store.filter (fun r => decide (tenantStr r = some tid)) = r :: rest →
      retrieveData (.ok ()) store tid = ⟨200, r⟩ ∧ tenantStr r = some tid) ∧
    (404 : Nat) ≠ 500 := by
  refine ⟨fun e => rfl, fun h => by simp [retrieveData, h], fun r rest h => ⟨?_, ?_⟩, by decide⟩
  · simp [retrieveData, h]
  · have : r ∈ store.filter (fun r => decide (tenantStr r = some tid)) := by
      rw [h]; exact List.mem_cons_self r rest
    have := List.of_mem_filter this
    simpa using this

/-- C2 witness: concrete instances of the three outcomes. -/
theorem C2_retrieve_by_tenant_witness :
    retrieveData (.ok ()) [[("TenantId", JVal.jstr "x")]] "x"
        = ⟨200, [("TenantId", JVal.jstr "x")]⟩ ∧
    retrieveData (.ok ()) [] "x" = ⟨404, [("error", JVal.jstr "Item not found")]⟩ ∧
    retrieveData (.error "down") [] "x"
        = ⟨500, [("error", JVal.jstr "Database error"), ("details", JVal.jstr "down")]⟩ :=
  ⟨((C2_retrieve_by_tenant [[("TenantId", JVal.jstr "x")]] "x").2.2.1
      [("TenantId", JVal.jstr "x")] [] rfl).1,
   (C2_retrieve_by_tenant [] "x").2.1 rfl,
   (C2_retrieve_by_tenant [] "x").1 "down"⟩

/-- C3: when any of `app`, `org_name`, `email` is absent or empty (falsy),
POST /createApp answers 400, issues no remote call at all, and its error
message lists exactly the falsy validated fields: each of the three appears
in the list iff it is falsy, `initiate_login_uri` appears iff its computed
value is falsy, and nothing else appears. -/
theorem C3_validation (w : A0World) (connId domain : String) (data : Doc)
    (h : truthy (pyGet data "app") = false ∨ truthy (pyGet data "org_name") = false ∨
         truthy (pyGet data "email") = false) :
    (createAuth0App w connId domain data).1.status = 400 ∧
    (createAuth0App w connId domain data).2 = [] ∧
    (createAuth0App w connId domain data).1.body
      = [("error", .jstr ("Missing required fields: "
            ++ String.intercalate ", " (missingFields data)))] ∧
    ("app" ∈ missingFields data ↔ truthy (pyGet data "app") = false) ∧
    ("org_name" ∈ missingFields data ↔ truthy (pyGet data "org_name") = false) ∧
    ("email" ∈ missingFields data ↔ truthy (pyGet data "email") = false) ∧
    ("initiate_login_uri" ∈ missingFields data ↔
      truthy (dictGetD data "initiate_login_uri" (.jstr "http://localhost:3000")) = false) ∧
    (∀ k ∈ missingFields data,
      k = "app" ∨ k = "org_name" ∨ k = "email" ∨ k = "initiate_login_uri") := by
  have hc : (truthy (pyGet data "app") && truthy (pyGet data "org_name")
      && truthy (pyGet data "email")
      && truthy (dictGetD data "initiate_login_uri" (.jstr "http://localhost:3000"))) = false := by
    rcases h with h | h | h <;> simp [h]
  refine ⟨by simp [createAuth0App, hc], by simp [createAuth0App, hc],
    by simp [createAuth0App, hc], ?_, ?_, ?_, ?_, ?_⟩
  all_goals
    cases h1 : truthy (pyGet data "app") <;>
    cases h2 : truthy (pyGet data "org_name") <;>
    cases h3 : truthy (pyGet data "email") <;>
    cases h4 : truthy (dictGetD data "initiate_login_uri" (JVal.jstr "http://localhost:3000")) <;>
    simp [missingFields, reqPairs, List.filter_cons, h1, h2, h3, h4]

/-- C3 witness: a request missing `app` and `org_name` is rejected with 400,
no remote call, and the missing list contains exactly those two names. -/
theorem C3_validation_witness :
    (createAuth0App ⟨.ok (), .ok "cid", .ok "oid", .ok (), .ok ()⟩ "con_123456"
        "dev-abc123.auth0.com" [("email", JVal.jstr "a@b.co")]).1.status = 400 ∧
    (createAuth0App ⟨.ok (), .ok "cid", .ok "oid", .ok (), .ok ()⟩ "con_123456"
        "dev-abc123.auth0.com" [("email", JVal.jstr "a@b.co")]).2 = [] ∧
    ("app" ∈ missingFields [("email", JVal.jstr "a@b.co")] ↔ True) ∧
    ("email" ∈ missingFields [("email", JVal.jstr "a@b.co")] ↔ False) :=
  have h := C3_validation ⟨.ok (), .ok "cid", .ok "oid", .ok (), .ok ()⟩ "con_123456"
    "dev-abc123.auth0.com" [("email", JVal.jstr "a@b.co")] (Or.inl (by decide))
  ⟨h.1, h.2.1, by rw [h.2.2.2.1]; exact iff_true_intro (by decide),
   by rw [h.2.2.2.2.2.1]; exact iff_false_intro (by decide)⟩

/-- C4: when validation passes and the token exchange (step 1) fails,
POST /createApp answers 500 and the trace holds only the token-exchange
call: no application, organization, connection or invitation has been
created. -/
theorem C4_token_failure_aborts (w : A0World) (connId domain : String) (data : Doc) (e : String)
    (ha : truthy (pyGet data "app") = true)
    (ho : truthy (pyGet data "org_name") = true)
    (he : truthy (pyGet data "email") = true)
    (hi : truthy (dictGetD data "initiate_login_uri" (.jstr "http://localhost:3000")) = true)
    (ht : w.token = .error e) :
    (createAuth0App w connId domain data).1.status = 500 ∧
    (createAuth0App w connId domain data).2 = [A0Effect.tokenExchange] := by
  simp [createAuth0App, ha, ho, he, hi, ht]

/-- C4 witness: a concrete validated request with a failing token exchange. -/
theorem C4_token_failure_aborts_witness :
    (createAuth0App ⟨.error "boom", .ok "cid", .ok "oid", .ok (), .ok ()⟩ "con_123456"
        "dev-abc123.auth0.com"
        [("app", JVal.jstr "A"), ("org_name", JVal.jstr "O"),
         ("email", JVal.jstr "a@b.co")]).1.status = 500 ∧
    (createAuth0App ⟨.error "boom", .ok "cid", .ok "oid", .ok (), .ok ()⟩ "con_123456"
        "dev-abc123.auth0.com"
        [("app", JVal.jstr "A"), ("org_name", JVal.jstr "O"),
         ("email", JVal.jstr "a@b.co")]).2 = [A0Effect.tokenExchange] :=
  C4_token_failure_aborts ⟨.error "boom", .ok "cid", .ok "oid", .ok (), .ok ()⟩
    "con_123456" "dev-abc123.auth0.com"
    [("app", JVal.jstr "A"), ("org_name", JVal.jstr "O"), ("email", JVal.jstr "a@b.co")]
    "boom" rfl rfl rfl rfl rfl

/-- C5: once the provisioning run reaches the organization step, the (one)
organization-creation call it issues carries machine-readable name equal to
`org_name` lower-cased with spaces replaced by hyphens, and display name
equal to the original `org_name`. -/
theorem C5_org_slug (w : A0World) (connId domain : String) (data : Doc) (s cid : String)
    (ha : truthy (pyGet data "app") = true)
    (ho : pyGet data "org_name" = .jstr s) (hs : s ≠ "")
    (he : truthy (pyGet data "email") = true)
    (hi : truthy (dictGetD data "initiate_login_uri" (.jstr "http://localhost:3000")) = true)
    (ht : w.token = .ok ()) (hc : w.clientCreate = .ok cid) :
    A0Effect.orgCreate (pySlug s) s ∈ (createAuth0App w connId domain data).2 ∧
    ∀ n dn, A0Effect.orgCreate n dn ∈ (createAuth0App w connId domain data).2 →
      n = pySlug s ∧ dn = s := by
  have ho' : truthy (JVal.jstr s) = true := by
    simp [truthy, hs]
  cases hoc : w.orgCreate with
  | error e =>
    constructor
    · simp [createAuth0App, ha, ho, ho', he, hi, ht, hc, hoc]
    · intro n dn hmem
      simp [createAuth0App, ha, ho, ho', he, hi, ht, hc, hoc] at hmem
      exact ⟨hmem.1, hmem.2⟩
  | ok oid =>
    cases hon : w.orgConnect with
    | error e =>
      constructor
      · simp [createAuth0App, ha, ho, ho', he, hi, ht, hc, hoc, hon]
      · intro n dn hmem
        simp [createAuth0App, ha, ho, ho', he, hi, ht, hc, hoc, hon] at hmem
        exact ⟨hmem.1, hmem.2⟩
    | ok _ =>
      cases hin : w.invite with
      | error e =>
        constructor
        · simp [createAuth0App, ha, ho, ho', he, hi, ht, hc, hoc, hon, hin]
        · intro n dn hmem
          simp [createAuth0App, ha, ho, ho', he, hi, ht, hc, hoc, hon, hin] at hmem
          exact ⟨hmem.1, hmem.2⟩
      | ok _ =>
        constructor
        · simp [createAuth0App, ha, ho, ho', he, hi, ht, hc, hoc, hon, hin]
        · intro n dn hmem
          simp [createAuth0App, ha, ho, ho', he, hi, ht, hc, hoc, hon, hin] at hmem
          exact ⟨hmem.1, hmem.2⟩

/-- C5 witness: provisioning `My Org` creates the organization under the
machine name `my-org` with display name `My Org`. -/
theorem C5_org_slug_witness :
    A0Effect.orgCreate "my-org" "My Org" ∈
      (createAuth0App ⟨.ok (), .ok "cid", .ok "oid", .ok (), .ok ()⟩ "con_123456"
        "dev-abc123.auth0.com"
        [("app", JVal.jstr "A"), ("org_name", JVal.jstr "My Org"),
         ("email", JVal.jstr "a@b.co")]).2 :=
  have h := (C5_org_slug ⟨.ok (), .ok "cid", .ok "oid", .ok (), .ok ()⟩ "con_123456"
    "dev-abc123.auth0.com"
    [("app", JVal.jstr "A"), ("org_name", JVal.jstr "My Org"), ("email", JVal.jstr "a@b.co")]
    "My Org" "cid" rfl rfl (by decide) rfl rfl rfl rfl).1
  by simpa using h

/-- C6, counterexample.  The record `{id: a, name: x}` exists and the patch
`{id: b}` is non-empty, yet PUT /edit/a writes nothing back: the merged
object's partition key `b` no longer matches the stored document, the
replace cannot land, and the handler answers 404 with the store
unchanged. -/
theorem C6_counterexample :
    editData (.ok ()) [[("id", JVal.jstr "a"), ("name", JVal.jstr "x")]] "a"
        [("id", JVal.jstr "b")]
      = (⟨404, [("error", JVal.jstr "Item not found")]⟩,
         [[("id", JVal.jstr "a"), ("name", JVal.jstr "x")]]) :=
  rfl

/-- C6 (amended): for every existing record and every non-empty patch (with
the unique keys of a parsed JSON object) that does not rebind `id` to a
different value, PUT /edit/<id> answers 200 and writes back the merged
record, in which every field named in the patch has the patch's value and
every other stored field keeps its previous value. -/
theorem C6_edit_merge (store : Store) (id : String) (patch old : Doc)
    (hfind : findById store id = some old)
    (hne : patch.isEmpty = false)
    (hnd : (patch.map Prod.fst).Nodup)
    (hid : dictGet patch "id" = none ∨ dictGet patch "id" = some (.jstr id)) :
    (editData (.ok ()) store id patch).1.status = 200 ∧
    (editData (.ok ()) store id patch).2 = replaceById store id (pyUpdate old patch) ∧
    pyUpdate old patch ∈ (editData (.ok ()) store id patch).2 ∧
    (∀ k v, dictGet patch k = some v → dictGet (pyUpdate old patch) k = some v) ∧
    (∀ k, dictGet patch k = none → dictGet (pyUpdate old patch) k = dictGet old k) := by
  have hold : idStr old = some id := idStr_findById hfind
  have hmid : idStr (pyUpdate old patch) = some id := by
    rcases hid with h | h
    · have hsame := pyUpdate_notin old h
      rw [idStr, hsame]
      rw [idStr] at hold
      exact hold
    · have := pyUpdate_in old hnd h
      rw [idStr, this]
  have hrun : editData (.ok ()) store id patch
      = (⟨200, [("message", .jstr "Data updated successfully")]⟩,
         replaceById store id (pyUpdate old patch)) := by
    simp [editData, hne, hfind, hmid]
  rw [hrun]
  exact ⟨rfl, rfl, mem_replaceById _ hfind,
    fun k v hk => pyUpdate_in old hnd hk,
    fun k hk => pyUpdate_notin old hk⟩

/-- C6 witness: editing `{id: a, name: x, keep: k}` with patch `{name: y}`
answers 200, overwrites `name` and preserves `keep`. -/
theorem C6_edit_merge_witness :
    (editData (.ok ())
        [[("id", JVal.jstr "a"), ("name", JVal.jstr "x"), ("keep", JVal.jstr "k")]]
        "a" [("name", JVal.jstr "y")]).1.status = 200 ∧
    dictGet (pyUpdate [("id", JVal.jstr "a"), ("name", JVal.jstr "x"), ("keep", JVal.jstr "k")]
        [("name", JVal.jstr "y")]) "name" = some (JVal.jstr "y") ∧
    dictGet (pyUpdate [("id", JVal.jstr "a"), ("name", JVal.jstr "x"), ("keep", JVal.jstr "k")]
        [("name", JVal.jstr "y")]) "keep" = some (JVal.jstr "k") :=
  have h := C6_edit_merge
    [[("id", JVal.jstr "a"), ("name", JVal.jstr "x"), ("keep", JVal.jstr "k")]]
    "a" [("name", JVal.jstr "y")]
    [("id", JVal.jstr "a"), ("name", JVal.jstr "x"), ("keep", JVal.jstr "k")]
    rfl rfl (by simp) (Or.inl rfl)
  ⟨h.1, h.2.2.2.1 "name" (JVal.jstr "y") rfl, h.2.2.2.2 "keep" rfl⟩

/-- C7: no operation changes a stored document's `id`.  Editing leaves the
sequence of stored ids untouched (a patch that rebinds `id` is refused by
the store and nothing is written); writing either leaves the ids untouched
(in-place upsert) or appends one new id (creation); deletion only removes
ids, never alters one; retrieval does not write at all. -/
theorem C7_id_immutable (conn : Conn) (store : Store) (id : String) (patch : Doc)
    (data : Option Doc) :
    storeIds (editData conn store id patch).2 = storeIds store ∧
    (storeIds (writeData conn store data).2 = storeIds store ∨
      ∃ s, storeIds (writeData conn store data).2 = storeIds store ++ [some s]) ∧
    List.Sublist (storeIds (deleteData conn store id).2) (storeIds store) := by
  refine ⟨?_, ?_, ?_⟩
  · cases hp : patch.isEmpty with
    | true => simp [editData, hp]
    | false =>
      cases conn with
      | error e => simp [editData, hp]
      | ok u =>
        cases hfind : findById store id with
        | none => simp [editData, hp, hfind]
        | some old =>
          by_cases hmid : idStr (pyUpdate old patch) = some id
          · have := storeIds_replaceById store hmid
            simp [editData, hp, hfind, hmid, this]
          · simp [editData, hp, hfind, hmid]
  · cases data with
    | none => exact Or.inl rfl
    | some d =>
      by_cases hv : d.isEmpty = true ∨ hasKey d "id" = false
      · simp only [writeData, if_pos hv]
        exact Or.inl (by trivial)
      · cases conn with
        | error e =>
          simp only [writeData, if_neg hv]
          exact Or.inl (by trivial)
        | ok u =>
          cases hids : idStr d with
          | none =>
            simp only [writeData, if_neg hv, hids]
            exact Or.inl (by trivial)
          | some s =>
            simp only [writeData, if_neg hv, hids]
            rcases storeIds_upsertAt store hids with h | h
            · exact Or.inl h
            · exact Or.inr ⟨s, h⟩
  · cases conn with
    | error e => exact List.Sublist.refl _
    | ok u =>
      cases hfind : findById store id with
      | none =>
        simp only [deleteData, hfind]
        exact List.Sublist.refl _
      | some old =>
        simp only [deleteData, hfind]
        exact storeIds_removeById store id

/-- C8: a POST /trigger-deploy request with `repo` present but
`workflow_id` absent or empty answers 400 and issues no call to the CI
platform. -/
theorem C8_missing_workflow (pat owner : String) (w : Except String GhResp) (data : Doc)
    (rv : JVal) (_hrepo : dictGet data "repo" = some rv)
    (hwf : truthy (pyGet data "workflow_id") = false) :
    (triggerDeployment pat owner w data).1.status = 400 ∧
    (triggerDeployment pat owner w data).2 = [] := by
  cases hr : truthy (pyGet data "repo") with
  | false => constructor <;> simp [triggerDeployment, hr]
  | true => constructor <;> simp [triggerDeployment, hr, hwf]

/-- C8 witness: `{repo: r}` without `workflow_id`. -/
theorem C8_missing_workflow_witness :
    (triggerDeployment "ghp_dummyPAT" "dummy-owner" (.ok ⟨204, .jsonWithout⟩)
        [("repo", JVal.jstr "r")]).1.status = 400 ∧
    (triggerDeployment "ghp_dummyPAT" "dummy-owner" (.ok ⟨204, .jsonWithout⟩)
        [("repo", JVal.jstr "r")]).2 = [] :=
  C8_missing_workflow "ghp_dummyPAT" "dummy-owner" (.ok ⟨204, .jsonWithout⟩)
    [("repo", JVal.jstr "r")] (JVal.jstr "r") rfl rfl

/-- C9, counterexample.  The CI platform answers 502 with a body that is not
a JSON object; `response.json()` raises and the handler answers 500, not
the upstream 502, so the claimed unconditional status passthrough fails. -/
theorem C9_counterexample :
    (triggerDeployment "ghp_dummyPAT" "dummy-owner" (.ok ⟨502, .noJson⟩)
        [("repo", JVal.jstr "r"), ("workflow_id", JVal.jstr "wf")]).1.status = 500 ∧
    (500 : Nat) ≠ 502 :=
  ⟨rfl, by decide⟩

/-- C9 (amended): for a dispatched request answered by the CI platform with
a status other than 204, when the body is a JSON object the handler's
status equals the upstream status and `details` carries the upstream
`message` when present and `Unknown error` otherwise; when the body is not
a JSON object the handler answers 500. -/
theorem C9_status_passthrough (pat owner : String) (data : Doc) (r : GhResp)
    (hrepo : truthy (pyGet data "repo") = true)
    (hwf : truthy (pyGet data "workflow_id") = true)
    (hpat : pat ≠ "") (howner : owner ≠ "")
    (h204 : r.status ≠ 204) :
    (∀ m, r.body = .jsonWith m →
      (triggerDeployment pat owner (.ok r) data).1.status = r.status ∧
      ("details", JVal.jstr m) ∈ (triggerDeployment pat owner (.ok r) data).1.body) ∧
    (r.body = .jsonWithout →
      (triggerDeployment pat owner (.ok r) data).1.status = r.status ∧
      ("details", JVal.jstr "Unknown error") ∈ (triggerDeployment pat owner (.ok r) data).1.body) ∧
    (r.body = .noJson →
      (triggerDeployment pat owner (.ok r) data).1.status = 500) := by
  have hcred : ¬ (pat = "" ∨ owner = "") := by
    rintro (h | h)
    · exact hpat h
    · exact howner h
  obtain ⟨st, b⟩ := r
  simp only at h204
  refine ⟨fun m hm => ?_, fun hm => ?_, fun hm => ?_⟩
  · subst hm
    exact ⟨by simp [triggerDeployment, hrepo, hwf, hcred, h204],
           by simp [triggerDeployment, hrepo, hwf, hcred, h204]⟩
  · subst hm
    exact ⟨by simp [triggerDeployment, hrepo, hwf, hcred, h204],
           by simp [triggerDeployment, hrepo, hwf, hcred, h204]⟩
  · subst hm
    simp [triggerDeployment, hrepo, hwf, hcred, h204]

/-- C9 witness: a 422 with a JSON `message` body is echoed with status 422
and the upstream message in `details`. -/
theorem C9_status_passthrough_witness :
    (triggerDeployment "ghp_dummyPAT" "dummy-owner" (.ok ⟨422, .jsonWith "bad ref"⟩)
        [("repo", JVal.jstr "r"), ("workflow_id", JVal.jstr "wf")]).1.status = 422 ∧
    ("details", JVal.jstr "bad ref") ∈
      (triggerDeployment "ghp_dummyPAT" "dummy-owner" (.ok ⟨422, .jsonWith "bad ref"⟩)
        [("repo", JVal.jstr "r"), ("workflow_id", JVal.jstr "wf")]).1.body :=
  (C9_status_passthrough "ghp_dummyPAT" "dummy-owner"
    [("repo", JVal.jstr "r"), ("workflow_id", JVal.jstr "wf")] ⟨422, .jsonWith "bad ref"⟩
    rfl rfl (by decide) (by decide) (by decide)).1 "bad ref" rfl

/-- Helper: a request whose four validated fields are all truthy is never
answered 400 by /createApp, whatever the oracle outcomes. -/
theorem createAuth0App_status_ne_400 (w : A0World) (connId domain : String) (data : Doc)
    (h1 : truthy (pyGet data "app") = true)
    (h2 : truthy (pyGet data "org_name") = true)
    (h3 : truthy (pyGet data "email") = true)
    (h4 : truthy (dictGetD data "initiate_login_uri" (.jstr "http://localhost:3000")) = true) :
    (createAuth0App w connId domain data).1.status ≠ 400 := by
  rcases hto : w.token with e | u
  · simp [createAuth0App, h1, h2, h3, h4, hto]
  · rcases htc : w.clientCreate with e | cid
    · simp [createAuth0App, h1, h2, h3, h4, hto, htc]
    · rcases hvon : pyGet data "org_name" with _ | bb | nn | ss | xs | kvs
      case jstr =>
        have hss : truthy (JVal.jstr ss) = true := by rw [← hvon]; exact h2
        rcases hoo : w.orgCreate with e | oid
        · simp [createAuth0App, h1, h2, h3, h4, hss, hto, htc, hvon, hoo]
        · rcases hcn : w.orgConnect with e | uu
          · simp [createAuth0App, h1, h2, h3, h4, hss, hto, htc, hvon, hoo, hcn]
          · rcases hin : w.invite with e | uu
            · simp [createAuth0App, h1, h2, h3, h4, hss, hto, htc, hvon, hoo, hcn, hin]
            · simp [createAuth0App, h1, h2, h3, h4, hss, hto, htc, hvon, hoo, hcn, hin]
      all_goals
        first
        | exact absurd (hvon ▸ h2) (by decide)
        | (have hss := hvon ▸ h2
           simp [createAuth0App, h1, h3, h4, hto, htc, hvon, hss])

/-- C10: an explicit JSON `null` for `callback_urls` or `logout_urls` keeps
the key present, so the localhost default of `data.get` is not applied: the
retained value is `None`, which `ensure_list` normalizes to the empty list.
Such a null never causes a 400: /createApp answers 400 exactly when one of
the four validated fields is falsy, independently of the URL fields. -/
theorem C10_null_urls (w : A0World) (connId domain : String) (data : Doc) :
    (dictGet data "callback_urls" = some .jnull →
      dictGetD data "callback_urls" (.jstr "http://localhost:3000/callback") = .jnull ∧
      ensureList (dictGetD data "callback_urls" (.jstr "http://localhost:3000/callback")) = []) ∧
    (dictGet data "logout_urls" = some .jnull →
      dictGetD data "logout_urls" (.jstr "http://localhost:3000/logout") = .jnull ∧
      ensureList (dictGetD data "logout_urls" (.jstr "http://localhost:3000/logout")) = []) ∧
    ((createAuth0App w connId domain data).1.status = 400 ↔
      ¬ (truthy (pyGet data "app") = true ∧ truthy (pyGet data "org_name") = true ∧
         truthy (pyGet data "email") = true ∧
         truthy (dictGetD data "initiate_login_uri" (.jstr "http://localhost:3000")) = true)) := by
  refine ⟨fun h => ?_, fun h => ?_, ?_⟩
  · have hd : dictGetD data "callback_urls" (.jstr "http://localhost:3000/callback") = .jnull := by
      simp [dictGetD, h]
    exact ⟨hd, by rw [hd]; rfl⟩
  · have hd : dictGetD data "logout_urls" (.jstr "http://localhost:3000/logout") = .jnull := by
      simp [dictGetD, h]
    exact ⟨hd, by rw [hd]; rfl⟩
  · constructor
    · intro hst hh
      exact createAuth0App_status_ne_400 w connId domain data hh.1 hh.2.1 hh.2.2.1 hh.2.2.2 hst
    · intro hh
      cases hc : (truthy (pyGet data "app") && truthy (pyGet data "org_name") &&
          truthy (pyGet data "email") &&
          truthy (dictGetD data "initiate_login_uri" (JVal.jstr "http://localhost:3000"))) with
      | false => simp [createAuth0App, hc]
      | true =>
        rw [Bool.and_eq_true, Bool.and_eq_true, Bool.and_eq_true] at hc
        exact absurd ⟨hc.1.1.1, hc.1.1.2, hc.1.2, hc.2⟩ hh

/-- C10 witness: explicit nulls for both URL fields on an otherwise valid
request normalize to empty lists and do not trigger 400. -/
theorem C10_null_urls_witness :
    ensureList (dictGetD
        [("app", JVal.jstr "A"), ("org_name", JVal.jstr "O"), ("email", JVal.jstr "E"),
         ("callback_urls", JVal.jnull), ("logout_urls", JVal.jnull)]
        "callback_urls" (JVal.jstr "http://localhost:3000/callback")) = [] ∧
    ¬ (createAuth0App ⟨.ok (), .ok "cid", .ok "oid", .ok (), .ok ()⟩ "con_123456"
        "dev-abc123.auth0.com"
        [("app", JVal.jstr "A"), ("org_name", JVal.jstr "O"), ("email", JVal.jstr "E"),
         ("callback_urls", JVal.jnull), ("logout_urls", JVal.jnull)]).1.status = 400 :=
  have h := C10_null_urls ⟨.ok (), .ok "cid", .ok "oid", .ok (), .ok ()⟩ "con_123456"
    "dev-abc123.auth0.com"
    [("app", JVal.jstr "A"), ("org_name", JVal.jstr "O"), ("email", JVal.jstr "E"),
     ("callback_urls", JVal.jnull), ("logout_urls", JVal.jnull)]
  ⟨(h.1 rfl).2, fun hst => (h.2.2.1 hst) ⟨by decide, by decide, by decide, by decide⟩⟩

end HealthApp
